import Mathlib

/-!
Verification development for the weather_tui repository (src/main.rs).

The core under study is the data-extraction pipeline
(`extract_temperature_data`, the axis-bound computation inside `ui`),
the render/poll loop of `main` with `handle_events`, and the
command-line coordinate fallback of `main`.

Modelling conventions:
* Rust `f64` values are modelled as exact rationals (`ℚ`); the fold
  sentinels `f64::MAX` / `f64::MIN` are carried over as their exact
  rational values `fMAX` / `fMIN`.
* `serde_json::Value` (the per-field value of a daily entry) is
  modelled by `JsonValue`, with `as_f64` succeeding exactly on the
  numeric constructor.
* The `HashMap<String, ForecastResultItem>` of a daily entry is
  modelled as an association list queried by `lookupField`.
* The effectful parts of `main` (terminal setup/teardown, fetch, the
  draw/poll loop) are modelled as an explicit trace of actions,
  `mainTrace`, in the order the Rust code performs them.
-/

namespace WeatherTui

/-- Model of the per-field JSON value stored in a daily entry
(`serde_json::Value`); `as_f64` succeeds only on numbers. -/
inductive JsonValue where
  | num (q : ℚ)
  | str (s : String)
  | boolean (b : Bool)
  | null
  deriving DecidableEq, Repr

/-- `serde_json::Value::as_f64`: numeric values convert, all others give `None`. -/
def JsonValue.as_f64 : JsonValue → Option ℚ
  | .num q => some q
  | _ => none

/-- `chrono::NaiveDate`, modelled by its calendar components. -/
structure NaiveDate where
  year : Int
  month : Nat
  day : Nat
  deriving DecidableEq, Repr

/-- `open_meteo_rs::forecast::ForecastResultItem`: a value with an optional unit. -/
structure ForecastResultItem where
  unit : Option String
  value : JsonValue
  deriving DecidableEq, Repr

/-- One daily entry of a forecast: a date plus a field-name → item mapping. -/
structure ForecastResultDaily where
  date : NaiveDate
  values : List (String × ForecastResultItem)
  deriving DecidableEq, Repr

/-- `HashMap::get` on the modelled field mapping. -/
def lookupField (values : List (String × ForecastResultItem)) (field : String) :
    Option ForecastResultItem :=
  match values with
  | [] => none
  | (k, v) :: rest => if k = field then some v else lookupField rest field

/-- `open_meteo_rs::forecast::ForecastResult`: optional current, hourly and
daily sections (only `daily` is used by the core). -/
structure ForecastResult where
  current : Option Unit
  hourly : Option Unit
  daily : Option (List ForecastResultDaily)
  deriving DecidableEq, Repr

/-- `extract_temperature_data` from src/main.rs: for each daily entry, look up
`"temperature_2m_max"`, convert with `as_f64`, default to `0.0`; an absent
daily section gives the empty vector. -/
def extract_temperature_data (forecast : ForecastResult) : List (NaiveDate × ℚ) :=
  match forecast.daily with
  | some daily =>
      daily.map (fun entry =>
        let temp := ((lookupField entry.values "temperature_2m_max").bind
          (fun v => v.value.as_f64)).getD 0
        (entry.date, temp))
  | none => []

/-- The sample two-entry forecast used by the repository test and the
end-to-end scenario of the spec. -/
def sampleEntries : List ForecastResultDaily :=
  [ { date := { year := 2024, month := 8, day := 2 },
      values := [("temperature_2m_max",
        { unit := some "F", value := JsonValue.num 82.76 })] },
    { date := { year := 2024, month := 8, day := 3 },
      values := [("temperature_2m_max",
        { unit := some "F", value := JsonValue.num 75.2 })] } ]

/-- The sample forecast wrapping `sampleEntries`. -/
def sampleForecast : ForecastResult :=
  { current := none, hourly := none, daily := some sampleEntries }

example :
    extract_temperature_data sampleForecast =
      [({ year := 2024, month := 8, day := 2 }, 82.76),
       ({ year := 2024, month := 8, day := 3 }, 75.2)] := by
  rfl

/-! ## The `ui` pipeline (src/main.rs, `ui`) -/

/-- The exact rational value of `f64::MAX`, the initial minimum accumulator
of the fold in `ui`. -/
def fMAX : ℚ := 2 ^ 1024 - 2 ^ 971

/-- The exact rational value of `f64::MIN`, the initial maximum accumulator
of the fold in `ui`. -/
def fMIN : ℚ := -(2 ^ 1024 - 2 ^ 971)

/-- One step of the fold in `ui`:
`|(min, max), &(_, temp)| (min.min(temp), max.max(temp))`. -/
def mmStep (mm : ℚ × ℚ) (p : NaiveDate × ℚ) : ℚ × ℚ :=
  (min mm.1 p.2, max mm.2 p.2)

/-- The fold of `ui` computing `(min_temp, max_temp)` over the extracted
series, starting from `(f64::MAX, f64::MIN)`. -/
def minMaxFold (tempData : List (NaiveDate × ℚ)) : ℚ × ℚ :=
  tempData.foldl mmStep (fMAX, fMIN)

/-- The fixed visual margin of `ui` (`let margin = 5.0`). -/
def margin : ℚ := 5

/-- `y_bounds` of `ui`: `[min_temp - margin, max_temp + margin]`. -/
def yBounds (tempData : List (NaiveDate × ℚ)) : ℚ × ℚ :=
  ((minMaxFold tempData).1 - margin, (minMaxFold tempData).2 + margin)

/-- `chart_data` of `ui`: the series values indexed by position. -/
def chartData (tempData : List (NaiveDate × ℚ)) : List (ℚ × ℚ) :=
  tempData.enum.map (fun p => ((p.1 : ℚ), p.2.2))

/-- Zero-padded two-digit rendering of a calendar component, as produced
by chrono's `%m` / `%d` format specifiers. -/
def pad2 (n : Nat) : String :=
  if n < 10 then "0" ++ toString n else toString n

/-- `date.format("%m/%d")` of `ui`. -/
def formatMMDD (d : NaiveDate) : String :=
  pad2 d.month ++ "/" ++ pad2 d.day

/-- `x_labels` of `ui`: the dates of the series formatted month/day. -/
def xLabels (tempData : List (NaiveDate × ℚ)) : List String :=
  tempData.map (fun p => formatMMDD p.1)

example : yBounds (extract_temperature_data sampleForecast) = (70.2, 87.76) := by
  norm_num [yBounds, minMaxFold, mmStep, extract_temperature_data, sampleForecast,
    sampleEntries, lookupField, JsonValue.as_f64, margin, fMAX, fMIN]

/-! ## The render/poll loop (src/main.rs, `main` and `handle_events`) -/

/-- `crossterm::event::KeyEventKind`. -/
inductive KeyEventKind where
  | press
  | release
  | rep
  deriving DecidableEq, Repr

/-- `crossterm::event::KeyCode`, collapsed to the character keys the code
inspects plus everything else. -/
inductive KeyCode where
  | char (c : Char)
  | otherKey
  deriving DecidableEq, Repr

/-- A key event: its kind and its code. -/
structure KeyEvent where
  kind : KeyEventKind
  code : KeyCode
  deriving DecidableEq, Repr

/-- `crossterm::event::Event`, collapsed to key events plus everything else. -/
inductive Event where
  | key (k : KeyEvent)
  | otherEvent
  deriving DecidableEq, Repr

/-- `handle_events` from src/main.rs, over the outcome of one poll:
`none` models a poll that timed out with no event, `some e` a poll that
returned event `e`.  Returns `true` (quit) exactly on a press of `q`. -/
def handle_events (polled : Option Event) : Bool :=
  match polled with
  | some (.key k) =>
      if k.kind = KeyEventKind.press ∧ k.code = KeyCode.char 'q' then true else false
  | _ => false

/-- The render loop of `main` over a finite prefix of poll outcomes:
each iteration draws one frame and then polls; the count of frames drawn
while consuming `inputs`.  The loop stops consuming as soon as
`handle_events` reports the quit key. -/
def loopDraws : List (Option Event) → Nat
  | [] => 0
  | e :: rest => 1 + (if handle_events e then 0 else loopDraws rest)

/-! ## The exit paths of `main` as an action trace -/

/-- The externally visible actions of `main`, in program order. -/
inductive TermAction where
  | enableRaw
  | enterAlt
  | fetchCall
  | draw
  | disableRaw
  | leaveAlt
  deriving DecidableEq, Repr

/-- Exit status of the process: `Ok(())` or an `Err` return. -/
inductive ExitStatus where
  | success
  | failure
  deriving DecidableEq, Repr

/-- The action trace and exit status of `main` (src/main.rs), given the
outcome of the one-shot fetch and the poll outcomes consumed by the loop
(ending in a quit): raw mode and the alternate screen are entered, the
fetch runs once; on fetch error `main` returns `Err` immediately; on
success the loop draws, then raw mode is disabled and the alternate
screen left. -/
def mainTrace (fetchResult : Except String ForecastResult)
    (inputs : List (Option Event)) : List TermAction × ExitStatus :=
  match fetchResult with
  | .error _ =>
      ([TermAction.enableRaw, TermAction.enterAlt, TermAction.fetchCall],
       ExitStatus.failure)
  | .ok _ =>
      ([TermAction.enableRaw, TermAction.enterAlt, TermAction.fetchCall] ++
        List.replicate (loopDraws inputs) TermAction.draw ++
        [TermAction.disableRaw, TermAction.leaveAlt],
       ExitStatus.success)

/-- The terminal was restored before returning: raw mode disabled and the
alternate screen left. -/
def restoresTerminal (trace : List TermAction) : Bool :=
  trace.contains TermAction.disableRaw && trace.contains TermAction.leaveAlt

/-! ## Command-line coordinate fallback (src/main.rs, `main`, lines 43-50) -/

/-- Decimal-digit test. -/
def isDigit (c : Char) : Bool := '0' ≤ c && c ≤ '9'

/-- Numeric value of a digit list, most significant first. -/
def natOfDigits (cs : List Char) : Nat :=
  cs.foldl (fun acc c => 10 * acc + (c.toNat - '0'.toNat)) 0

/-- Modelled from the spec: `str::parse::<f64>` of the standard library
(an external collaborator, not in src/), restricted to plain decimal
literals — an optional sign, integer digits, an optional point and
fraction digits; every other shape fails.  The parsed value is exact
(rational), matching the decimal the string denotes. -/
def parseF64 (s : String) : Option ℚ :=
  let cs := s.toList
  let signBody : Bool × List Char :=
    match cs with
    | '-' :: rest => (true, rest)
    | '+' :: rest => (false, rest)
    | _ => (false, cs)
  let mag : Option ℚ :=
    match signBody.2.splitOn '.' with
    | [ip] =>
        if !ip.isEmpty && ip.all isDigit then some (natOfDigits ip : ℚ) else none
    | [ip, fp] =>
        if (!ip.isEmpty || !fp.isEmpty) && ip.all isDigit && fp.all isDigit then
          some ((natOfDigits ip : ℚ) + (natOfDigits fp : ℚ) / (10 : ℚ) ^ fp.length)
        else none
    | _ => none
  mag.map (fun m => if signBody.1 then -m else m)

/-- The coordinate selection of `main`: with exactly two positional
arguments (`args.len() == 3`, the first element being the program name)
each coordinate is parsed and falls back to its own default on failure;
with any other argument count both defaults are used. -/
def parseCoords (args : List String) : ℚ × ℚ :=
  if args.length = 3 then
    ((parseF64 (args.getD 1 "")).getD 40.7128,
     (parseF64 (args.getD 2 "")).getD (-74.0060))
  else
    (40.7128, -74.0060)

example : parseF64 "10.5" = some 10.5 := by with_unfolding_all rfl
example : parseF64 "abc" = none := by rfl
example : parseCoords ["weather_tui", "abc", "10.5"] = (40.7128, 10.5) := by
  with_unfolding_all rfl

/-! ## Helper facts -/

/-- Default date used with `List.getD`. -/
def dummyDate : NaiveDate := { year := 0, month := 0, day := 0 }

/-- Default series element used with `List.getD`. -/
def dummyPair : NaiveDate × ℚ := (dummyDate, 0)

/-- Default daily entry used with `List.getD`. -/
def dummyEntry : ForecastResultDaily := { date := dummyDate, values := [] }

theorem getD_map_of_lt {α β : Type} (f : α → β) (l : List α) (i : Nat)
    (d : α) (d2 : β) (hi : i < l.length) :
    (l.map f).getD i d2 = f (l.getD i d) := by
  simp [List.getD_eq_getElem?_getD, List.getElem?_map,
    List.getElem?_eq_getElem (l := l) hi]

/-- The temperature selected by `extract_temperature_data` for one entry. -/
def entryTemp (entry : ForecastResultDaily) : ℚ :=
  ((lookupField entry.values "temperature_2m_max").bind
    (fun v => v.value.as_f64)).getD 0

theorem extract_eq_map (forecast : ForecastResult) (entries : List ForecastResultDaily)
    (h : forecast.daily = some entries) :
    extract_temperature_data forecast =
      entries.map (fun entry => (entry.date, entryTemp entry)) := by
  unfold extract_temperature_data entryTemp
  rw [h]

/-! ## C1: pointwise correctness of `extract_temperature_data` -/

/-- The content of claim C1 for a given daily section and output: the output
has one element per entry; the `i`-th element carries the `i`-th entry's date;
its value is the entry's `temperature_2m_max` number when that field is
present with a numeric value, and `0.0` when the field is absent. -/
def ExtractSpec (entries : List ForecastResultDaily)
    (out : List (NaiveDate × ℚ)) : Prop :=
  out.length = entries.length ∧
  ∀ i : Nat, i < entries.length →
    (out.getD i dummyPair).1 = (entries.getD i dummyEntry).date ∧
    (∀ item q,
      lookupField (entries.getD i dummyEntry).values "temperature_2m_max" = some item →
      item.value.as_f64 = some q →
      (out.getD i dummyPair).2 = q) ∧
    (lookupField (entries.getD i dummyEntry).values "temperature_2m_max" = none →
      (out.getD i dummyPair).2 = 0)

/-- C1: for every `ForecastResult` whose daily section is present,
`extract_temperature_data` returns a sequence of the same length as the daily
section, pairing each entry's date (in source order) with its
`temperature_2m_max` value, substituting `0.0` when the field is absent
rather than skipping the entry. -/
theorem extract_pointwise (forecast : ForecastResult)
    (entries : List ForecastResultDaily)
    (h : forecast.daily = some entries) :
    ExtractSpec entries (extract_temperature_data forecast) := by
  rw [extract_eq_map forecast entries h]
  constructor
  · simp
  · intro i hi
    rw [getD_map_of_lt _ entries i dummyEntry dummyPair hi]
    refine ⟨rfl, ?_, ?_⟩
    · intro item q hitem hq
      simp only [entryTemp, hitem, Option.some_bind, hq, Option.getD_some]
    · intro hnone
      simp only [entryTemp, hnone, Option.none_bind, Option.getD_none]

/-- Witness for C1 at the repository's own sample forecast. -/
theorem extract_pointwise_witness :
    ExtractSpec sampleEntries (extract_temperature_data sampleForecast) :=
  extract_pointwise sampleForecast sampleEntries rfl

/-! ## C8: absent or empty daily section yields the empty sequence -/

theorem extract_empty_helper (forecast : ForecastResult)
    (h : forecast.daily = none ∨ forecast.daily = some []) :
    extract_temperature_data forecast = [] := by
  rcases h with h | h
  · unfold extract_temperature_data
    rw [h]
  · rw [extract_eq_map forecast [] h]
    rfl

/-- C8: when the daily section is absent or has zero entries,
`extract_temperature_data` returns the empty sequence — not an error and not
a sentinel.  (The function is a pure Lean function of its argument,
mirroring that the Rust function reads only its argument and performs no
I/O.) -/
theorem extract_empty_cases (forecast : ForecastResult)
    (h : forecast.daily = none ∨ forecast.daily = some []) :
    extract_temperature_data forecast = [] :=
  extract_empty_helper forecast h

/-- A forecast with no daily section at all. -/
def emptyForecast : ForecastResult :=
  { current := none, hourly := none, daily := none }

/-- A forecast whose daily section is present but has zero entries. -/
def zeroEntryForecast : ForecastResult :=
  { current := none, hourly := none, daily := some [] }

/-- Witness for C8 on a forecast with `daily = None` and on one with an
empty daily section. -/
theorem extract_empty_cases_witness :
    extract_temperature_data emptyForecast = [] ∧
    extract_temperature_data zeroEntryForecast = [] :=
  ⟨extract_empty_cases emptyForecast (Or.inl rfl),
   extract_empty_cases zeroEntryForecast (Or.inr rfl)⟩

/-! ## C10: a present but non-numeric field value also yields `0.0` -/

/-- C10: when the `i`-th entry carries `temperature_2m_max` but its value is
not representable as an `f64` number (`as_f64` gives `None`),
`extract_temperature_data` substitutes `0.0` at position `i`, exactly as for
an absent field, and the length invariant still holds. -/
theorem extract_nonnumeric_zero (forecast : ForecastResult)
    (entries : List ForecastResultDaily) (i : Nat) (item : ForecastResultItem)
    (hdaily : forecast.daily = some entries) (hi : i < entries.length)
    (hlook : lookupField (entries.getD i dummyEntry).values "temperature_2m_max"
      = some item)
    (hnum : item.value.as_f64 = none) :
    ((extract_temperature_data forecast).getD i dummyPair).2 = 0 ∧
    (extract_temperature_data forecast).length = entries.length := by
  rw [extract_eq_map forecast entries hdaily]
  constructor
  · rw [getD_map_of_lt _ entries i dummyEntry dummyPair hi]
    simp only [entryTemp, hlook, Option.some_bind, hnum, Option.getD_none]
  · simp

/-- A forecast whose single entry carries `temperature_2m_max` with a string
value, which `as_f64` rejects. -/
def malformedForecast : ForecastResult :=
  { current := none, hourly := none,
    daily := some [
      { date := { year := 2024, month := 8, day := 2 },
        values := [("temperature_2m_max",
          { unit := some "F", value := JsonValue.str "hot" })] } ] }

/-- Witness for C10 on a forecast whose field value is a string. -/
theorem extract_nonnumeric_zero_witness :
    ((extract_temperature_data malformedForecast).getD 0 dummyPair).2 = 0 ∧
    (extract_temperature_data malformedForecast).length = 1 := by
  have h := extract_nonnumeric_zero malformedForecast
    [{ date := { year := 2024, month := 8, day := 2 },
       values := [("temperature_2m_max",
         { unit := some "F", value := JsonValue.str "hot" })] }]
    0 { unit := some "F", value := JsonValue.str "hot" }
    rfl (by simp) rfl rfl
  exact h

/-! ## C3: the axis-range computation on a non-empty series -/

theorem foldl_mmStep_fst_le (l : List (NaiveDate × ℚ)) :
    ∀ a b : ℚ, (l.foldl mmStep (a, b)).1 ≤ a := by
  induction l with
  | nil => intro a b; simp
  | cons x xs ih =>
      intro a b
      calc (List.foldl mmStep (mmStep (a, b) x) xs).1 ≤ (mmStep (a, b) x).1 := ih _ _
        _ ≤ a := min_le_left _ _

theorem le_foldl_mmStep_snd (l : List (NaiveDate × ℚ)) :
    ∀ a b : ℚ, b ≤ (l.foldl mmStep (a, b)).2 := by
  induction l with
  | nil => intro a b; simp
  | cons x xs ih =>
      intro a b
      calc b ≤ (mmStep (a, b) x).2 := le_max_left _ _
        _ ≤ (List.foldl mmStep (mmStep (a, b) x) xs).2 := ih _ _

theorem foldl_mmStep_mem_bounds (l : List (NaiveDate × ℚ)) :
    ∀ a b : ℚ, ∀ p ∈ l,
      (l.foldl mmStep (a, b)).1 ≤ p.2 ∧ p.2 ≤ (l.foldl mmStep (a, b)).2 := by
  induction l with
  | nil => intro a b p hp; simp at hp
  | cons x xs ih =>
      intro a b p hp
      rcases List.mem_cons.mp hp with h | h
      · subst h
        constructor
        · exact le_trans (foldl_mmStep_fst_le xs _ _) (min_le_right a p.2)
        · exact le_trans (le_max_right b p.2) (le_foldl_mmStep_snd xs _ _)
      · exact ih _ _ p h

/-- The content of claim C3 for a series: every value lies between the
computed minimum and maximum; the padded bounds are exactly
`(min - margin, max + margin)` with the fixed margin constant `5`; and they
satisfy `min - margin ≤ padded_min < padded_max ≤ max + margin`. -/
def AxisRangeSpec (tempData : List (NaiveDate × ℚ)) : Prop :=
  margin = 5 ∧
  (∀ p ∈ tempData,
    (minMaxFold tempData).1 ≤ p.2 ∧ p.2 ≤ (minMaxFold tempData).2) ∧
  yBounds tempData =
    ((minMaxFold tempData).1 - margin, (minMaxFold tempData).2 + margin) ∧
  (minMaxFold tempData).1 - margin ≤ (yBounds tempData).1 ∧
  (yBounds tempData).1 < (yBounds tempData).2 ∧
  (yBounds tempData).2 ≤ (minMaxFold tempData).2 + margin

/-- C3: for every non-empty series, the `ui` axis-range computation returns
a minimum and maximum enclosing every value, and the padded bounds are
exactly `(min - 5, max + 5)` with
`min - margin ≤ padded_min < padded_max ≤ max + margin`. -/
theorem axisRange_correct (tempData : List (NaiveDate × ℚ))
    (h : tempData ≠ []) : AxisRangeSpec tempData := by
  have hmem : ∀ p ∈ tempData,
      (minMaxFold tempData).1 ≤ p.2 ∧ p.2 ≤ (minMaxFold tempData).2 := by
    intro p hp
    exact foldl_mmStep_mem_bounds tempData fMAX fMIN p hp
  have hle : (minMaxFold tempData).1 ≤ (minMaxFold tempData).2 := by
    rcases List.exists_mem_of_ne_nil tempData h with ⟨p, hp⟩
    rcases hmem p hp with ⟨h1, h2⟩
    exact le_trans h1 h2
  refine ⟨rfl, hmem, rfl, le_refl _, ?_, le_refl _⟩
  show (minMaxFold tempData).1 - margin < (minMaxFold tempData).2 + margin
  have hm : (0 : ℚ) < margin := by norm_num [margin]
  linarith

/-- Witness for C3 on a concrete two-point series. -/
theorem axisRange_correct_witness :
    AxisRangeSpec [(dummyDate, 10), (dummyDate, 20)] :=
  axisRange_correct [(dummyDate, 10), (dummyDate, 20)] (by simp)

/-! ## C2: the empty series is **not** special-cased by `ui` -/

/-- Counterexample to C2: with zero daily entries `ui` still folds over the
(empty) series, so the padded bounds are the margin-shifted fold sentinels
`(f64::MAX - 5, f64::MIN + 5)` — an inverted pair (second component strictly
below the first), which no caller-supplied default range would produce; the
empty series is not special-cased. -/
theorem ui_empty_series_counterexample :
    yBounds [] = (fMAX - margin, fMIN + margin) ∧
    (yBounds []).2 < (yBounds []).1 := by
  constructor
  · rfl
  · show fMIN + margin < fMAX - margin
    norm_num [fMAX, fMIN, margin]

/-- C2 (amended): for every forecast with an absent or empty daily section
the extracted series is empty, and `ui` performs the min/max fold on it
anyway, starting from the sentinels `(f64::MAX, f64::MIN)`; the padded
bounds are therefore `(f64::MAX - 5, f64::MIN + 5)`, an inverted range,
with no caller-supplied default substituted. -/
theorem ui_empty_series_sentinel (forecast : ForecastResult)
    (h : forecast.daily = none ∨ forecast.daily = some []) :
    extract_temperature_data forecast = [] ∧
    yBounds (extract_temperature_data forecast) = (fMAX - margin, fMIN + margin) ∧
    (yBounds (extract_temperature_data forecast)).2 <
      (yBounds (extract_temperature_data forecast)).1 := by
  have he : extract_temperature_data forecast = [] := extract_empty_helper forecast h
  rw [he]
  refine ⟨rfl, rfl, ?_⟩
  show fMIN + margin < fMAX - margin
  norm_num [fMAX, fMIN, margin]

/-- Witness for the amended C2 on a forecast with `daily = None`. -/
theorem ui_empty_series_sentinel_witness :
    extract_temperature_data emptyForecast = [] ∧
    yBounds (extract_temperature_data emptyForecast) = (fMAX - margin, fMIN + margin) ∧
    (yBounds (extract_temperature_data emptyForecast)).2 <
      (yBounds (extract_temperature_data emptyForecast)).1 :=
  ui_empty_series_sentinel emptyForecast (Or.inl rfl)

/-! ## C5: the end-to-end sample scenario -/

/-- C5: on the sample forecast (entries dated 2024-08-02 and 2024-08-03 with
`temperature_2m_max` 82.76 and 75.2), extraction followed by month/day label
formatting yields `[("08/02", 82.76), ("08/03", 75.2)]` and the padded axis
bounds with margin 5 are `(70.2, 87.76)`. -/
theorem end_to_end_sample :
    (xLabels (extract_temperature_data sampleForecast)).zip
        ((extract_temperature_data sampleForecast).map Prod.snd) =
      [("08/02", 82.76), ("08/03", 75.2)] ∧
    yBounds (extract_temperature_data sampleForecast) = (70.2, 87.76) := by
  constructor
  · rfl
  · norm_num [yBounds, minMaxFold, mmStep, extract_temperature_data,
      sampleForecast, sampleEntries, lookupField, JsonValue.as_f64,
      margin, fMAX, fMIN]

/-! ## C4: the quit key stops the render loop -/

/-- C4: `handle_events` reports quit exactly on a key press of `q`; once the
quit key is observed during a poll, the loop draws no further frame after
the current iteration's draw (it has drawn exactly one frame per iteration
up to and including the quitting one), and a run whose polls all yield
non-quit outcomes keeps drawing one frame per iteration (the loop stays
running). -/
theorem quit_key_stops_loop (pre post : List (Option Event)) (q : Option Event)
    (hpre : ∀ e ∈ pre, handle_events e = false)
    (hq : handle_events q = true) :
    loopDraws (pre ++ q :: post) = pre.length + 1 ∧
    loopDraws pre = pre.length ∧
    ∀ k : KeyEvent, handle_events (some (Event.key k)) = true ↔
      (k.kind = KeyEventKind.press ∧ k.code = KeyCode.char 'q') := by
  refine ⟨?_, ?_, ?_⟩
  · induction pre with
    | nil => simp [loopDraws, hq]
    | cons e rest ih =>
        have he : handle_events e = false := hpre e (List.mem_cons_self e rest)
        have hrest : ∀ x ∈ rest, handle_events x = false := by
          intro x hx
          exact hpre x (List.mem_cons_of_mem e hx)
        simp [loopDraws, he, ih hrest, Nat.add_comm]
  · induction pre with
    | nil => rfl
    | cons e rest ih =>
        have he : handle_events e = false := hpre e (List.mem_cons_self e rest)
        have hrest : ∀ x ∈ rest, handle_events x = false := by
          intro x hx
          exact hpre x (List.mem_cons_of_mem e hx)
        simp [loopDraws, he, ih hrest, Nat.add_comm]
  · intro k
    constructor
    · intro hk
      by_contra hcon
      push_neg at hcon
      simp only [handle_events, if_pos, if_neg] at hk
      by_cases h1 : k.kind = KeyEventKind.press
      · by_cases h2 : k.code = KeyCode.char 'q'
        · exact absurd h2 (hcon h1)
        · rw [if_neg (by tauto)] at hk
          exact Bool.false_ne_true hk
      · rw [if_neg (by tauto)] at hk
        exact Bool.false_ne_true hk
    · intro hk
      simp [handle_events, hk.1, hk.2]

/-- A poll outcome that is a press of `q` (the quit key). -/
def quitPress : Option Event :=
  some (Event.key { kind := KeyEventKind.press, code := KeyCode.char 'q' })

/-- Poll outcomes that must not stop the loop: a timeout, a non-key event, a
release of `q`, and a press of a different key. -/
def benignPolls : List (Option Event) :=
  [none,
   some Event.otherEvent,
   some (Event.key { kind := KeyEventKind.release, code := KeyCode.char 'q' }),
   some (Event.key { kind := KeyEventKind.press, code := KeyCode.char 'x' })]

/-- Witness for C4: with three benign polls followed by a press of `q`, the
loop draws exactly five frames and stops. -/
theorem quit_key_stops_loop_witness :
    loopDraws (benignPolls ++ quitPress :: [none, quitPress]) =
      benignPolls.length + 1 ∧
    loopDraws benignPolls = benignPolls.length ∧
    ∀ k : KeyEvent, handle_events (some (Event.key k)) = true ↔
      (k.kind = KeyEventKind.press ∧ k.code = KeyCode.char 'q') :=
  quit_key_stops_loop benignPolls [none, quitPress] quitPress
    (by decide) (by decide)

/-! ## C6 and C7: the exit paths of `main` -/

/-- C6 evaluated at the failing input: when the one-shot fetch fails, `main`
returns immediately with an error and its action trace contains neither
`disable_raw_mode` nor `LeaveAlternateScreen`, although raw mode was enabled
and the alternate screen entered — the terminal is **not** restored on this
exit path, contradicting the claim that every exit path restores it. -/
theorem fetch_error_skips_restore :
    restoresTerminal (mainTrace (Except.error "Forecast retrieval failed") []).1
      = false ∧
    (mainTrace (Except.error "Forecast retrieval failed") []).1.contains
      TermAction.enableRaw = true ∧
    (mainTrace (Except.error "Forecast retrieval failed") []).1.contains
      TermAction.enterAlt = true ∧
    (mainTrace (Except.error "Forecast retrieval failed") []).2
      = ExitStatus.failure := by
  decide

/-- C7: on every fetch error, `main` reports failure and returns before the
render loop — its trace contains no draw action — and the fetch is called
exactly once on every path (error or success), so a failed fetch is never
retried within the run. -/
theorem fetch_error_aborts_before_loop (e : String)
    (inputs : List (Option Event)) :
    (mainTrace (Except.error e) inputs).2 = ExitStatus.failure ∧
    TermAction.draw ∉ (mainTrace (Except.error e) inputs).1 ∧
    (mainTrace (Except.error e) inputs).1.count TermAction.fetchCall = 1 ∧
    ∀ res : ForecastResult,
      (mainTrace (Except.ok res) inputs).1.count TermAction.fetchCall = 1 := by
  refine ⟨rfl, ?_, ?_, ?_⟩
  · intro hmem
    simp [mainTrace] at hmem
  · rfl
  · intro res
    simp [mainTrace, List.count_append, List.count_replicate, List.count_cons]

/-- Witness for C7 at a concrete fetch error and input list. -/
theorem fetch_error_aborts_before_loop_witness :
    (mainTrace (Except.error "Transport error") [quitPress]).2
      = ExitStatus.failure ∧
    TermAction.draw ∉ (mainTrace (Except.error "Transport error") [quitPress]).1 ∧
    (mainTrace (Except.error "Transport error") [quitPress]).1.count
      TermAction.fetchCall = 1 ∧
    ∀ res : ForecastResult,
      (mainTrace (Except.ok res) [quitPress]).1.count TermAction.fetchCall = 1 :=
  fetch_error_aborts_before_loop "Transport error" [quitPress]

/-! ## C9: the command-line coordinate fallback is per-component -/

/-- Counterexample to C9: with an unparsable latitude `"abc"` and a parsable
longitude `"10.5"`, the program uses `(default latitude, 10.5)` — the
parsed longitude is kept — rather than falling back to the whole fixed
coordinate `(40.7128, -74.0060)` as the claim states. -/
theorem coords_fallback_counterexample :
    parseCoords ["weather_tui", "abc", "10.5"] ≠ (40.7128, -74.0060) ∧
    parseCoords ["weather_tui", "abc", "10.5"] = (40.7128, 10.5) := by
  have h2 : parseCoords ["weather_tui", "abc", "10.5"] = (40.7128, 10.5) := by
    with_unfolding_all rfl
  refine ⟨?_, h2⟩
  rw [h2]
  intro hcon
  have hsnd := congrArg Prod.snd hcon
  norm_num at hsnd

/-- C9 (amended): when the two positional coordinate arguments are absent
(any argument count other than exactly two), the whole fixed default
coordinate (40.7128, -74.0060) is used; when exactly two are given, each
coordinate independently falls back to its own component of the fixed
default if its argument fails to parse, and a parsable argument is used
even when the other one is unparsable. -/
theorem parseCoords_fallback (args : List String) (p a b : String)
    (la lb : ℚ) :
    (args.length ≠ 3 → parseCoords args = (40.7128, -74.0060)) ∧
    (parseF64 a = some la → parseF64 b = some lb →
      parseCoords [p, a, b] = (la, lb)) ∧
    (parseF64 a = some la → parseF64 b = none →
      parseCoords [p, a, b] = (la, -74.0060)) ∧
    (parseF64 a = none → parseF64 b = some lb →
      parseCoords [p, a, b] = (40.7128, lb)) ∧
    (parseF64 a = none → parseF64 b = none →
      parseCoords [p, a, b] = (40.7128, -74.0060)) := by
  refine ⟨?_, ?_, ?_, ?_, ?_⟩
  · intro hlen
    simp [parseCoords, hlen]
  · intro h1 h2
    simp [parseCoords, h1, h2]
  · intro h1 h2
    simp [parseCoords, h1, h2]
  · intro h1 h2
    simp [parseCoords, h1, h2]
  · intro h1 h2
    simp [parseCoords, h1, h2]

/-- Witness for the amended C9: no positional arguments gives the whole
default; a parsable latitude with an unparsable longitude keeps the parsed
latitude and defaults only the longitude. -/
theorem parseCoords_fallback_witness :
    parseCoords ["weather_tui"] = (40.7128, -74.0060) ∧
    parseCoords ["weather_tui", "51.5", "abc"] = (51.5, -74.0060) := by
  constructor
  · exact (parseCoords_fallback ["weather_tui"] "weather_tui" "51.5" "abc"
      51.5 0).1 (by simp)
  · exact (parseCoords_fallback ["weather_tui"] "weather_tui" "51.5" "abc"
      51.5 0).2.2.1 (by with_unfolding_all rfl) rfl

end WeatherTui
